import Mathlib

/-!
Verification of the Japanese lyrics alignment service (`src/main.py`).

The service is a FastAPI app with one pipeline endpoint `/align`.  We give a
shallow embedding of its pure core: request validation (`validate_lyrics`),
the per-stage error translation of the external invocations (`download_audio`,
`convert_audio_to_wav`, `write_lyrics_file`, `run_aeneas_alignment`), the
result reconciliation (`parse_aeneas_output`), the orchestrator with its
`finally` cleanup (`align_lyrics`), and the startup dependency preflight
(`check_dependencies`).  Effectful primitives (network fetch, subprocess
runs, `json.load`, `os.remove`) are modelled by explicit outcome values; the
scratch filesystem is a list of paths.  Timestamps (Python floats carrying
JSON numbers) are modelled as rationals.
-/

set_option linter.unusedVariables false

namespace KaraokeService

/-- An `HTTPException(status_code, detail)` as raised throughout `main.py`. -/
structure HTTPError where
  status : Nat
  detail : String
deriving Repr, DecidableEq

/-- The response record `AlignmentResult` (main.py lines 38-42). -/
structure AlignmentResult where
  line_index : Nat
  text : String
  start : Rat
  «end» : Rat
deriving Repr, DecidableEq

/-- One element of a fragment's `"lines"` array in the aeneas JSON output:
a dict that may carry `"begin"` and `"end"` keys (absent keys modelled as
`none`, read with default `0` as in `first_line.get("begin", 0)`). -/
structure SubLine where
  begin? : Option Rat
  end? : Option Rat
deriving Repr, DecidableEq

/-- One entry of `data["fragments"]` in the aeneas JSON output: optional
direct `"begin"`/`"end"` keys and a `"lines"` array (`fragment.get("lines", [])`
makes an absent key the empty list). -/
structure Fragment where
  begin? : Option Rat
  end? : Option Rat
  lines : List SubLine
deriving Repr, DecidableEq

/-- The per-fragment timing extraction of `parse_aeneas_output`
(main.py lines 166-182): use the direct `begin`/`end` pair when both keys
are present, otherwise fall back to the `lines` array, failing with a 500
when it is empty and otherwise taking the first sub-line's `begin` and the
last sub-line's `end` (each defaulting to `0` when absent). -/
def processFragment (idx : Nat) (f : Fragment) : Except HTTPError (Rat × Rat) :=
  match f.begin?, f.end? with
  | some b, some e => .ok (b, e)
  | _, _ =>
    match f.lines with
    | [] => .error ⟨500, ("Fragment " ++ toString (idx + 1) ++ " has no timing information")⟩
    | first :: rest =>
      let last := (first :: rest).getLast (List.cons_ne_nil first rest)
      .ok (first.begin?.getD 0, last.end?.getD 0)

/-- The result-building loop of `parse_aeneas_output` (main.py lines
166-189): walk the fragments with a running 0-based index `idx`, abort on
the first fragment error, and emit
`AlignmentResult(line_index=idx+1, text=lyrics[idx], start, end)` in order. -/
def alignLoop (lyrics : List String) : Nat → List Fragment → Except HTTPError (List AlignmentResult)
  | _, [] => .ok []
  | idx, f :: fs =>
    match processFragment idx f with
    | .error err => .error err
    | .ok (s, e) =>
      match alignLoop lyrics (idx + 1) fs with
      | .error err => .error err
      | .ok rest => .ok (⟨idx + 1, lyrics.getD idx "", s, e⟩ :: rest)

/-- `parse_aeneas_output` (main.py lines 144-191) after a successful
`json.load`: `fragments = data.get("fragments", [])`, a count mismatch with
`lyrics` is a 500 error, otherwise the fragments are reconciled positionally. -/
def parse_aeneas_output (fragments : List Fragment) (lyrics : List String) :
    Except HTTPError (List AlignmentResult) :=
  if fragments.length ≠ lyrics.length then
    .error ⟨500, ("Alignment mismatch: " ++ toString fragments.length ++ " fragments for " ++
      toString lyrics.length ++ " lyrics")⟩
  else
    alignLoop lyrics 0 fragments

/-- Python's `'\n' in line` membership test, on the character sequence of
the string. -/
def pyContainsNewline (line : String) : Bool :=
  line.data.contains '\n'

/-- Python's `str.strip()`: drop leading and trailing whitespace. -/
def pyStrip (s : String) : String :=
  ⟨((s.data.dropWhile Char.isWhitespace).reverse.dropWhile Char.isWhitespace).reverse⟩

/-- The validation message of `AlignmentRequest.validate_lyrics` for a
multiline element (main.py lines 30-34): it names the offending index. -/
def multilineMsg (i : Nat) : String :=
  "lyrics[" ++ toString i ++ "] appears to be a multiline string. " ++
    "Each item in lyrics should be a single line. " ++
    "Split multiline strings into separate list items."

/-- The per-index check of `AlignmentRequest.validate_lyrics` (main.py lines
25-34): walk the list with `enumerate`, failing at the first element that
contains a newline character with a message naming that index. -/
def checkMultiline : Nat → List String → Except String Unit
  | _, [] => .ok ()
  | i, line :: rest =>
    if pyContainsNewline line then
      .error (multilineMsg i)
    else
      checkMultiline (i + 1) rest

/-- `AlignmentRequest.validate_lyrics` (main.py lines 17-35): an empty list
is rejected, then each element is checked for an embedded newline; on
success the list is returned unchanged. -/
def validate_lyrics (v : List String) : Except String (List String) :=
  if v.isEmpty then .error "lyrics cannot be empty"
  else
    match checkMultiline 0 v with
    | .error msg => .error msg
    | .ok _ => .ok v

/-- Outcome of `urllib.request.urlretrieve` in `download_audio`: success or
an exception carrying a message. -/
inductive FetchOutcome where
  | success
  | failure (msg : String)
deriving Repr, DecidableEq

/-- `download_audio` (main.py lines 45-50): any fetch exception becomes a
400 `HTTPException`. -/
def download_audio (o : FetchOutcome) : Except HTTPError Unit :=
  match o with
  | .success => .ok ()
  | .failure msg => .error ⟨400, ("Failed to download audio: " ++ msg)⟩

/-- Outcome of a `subprocess.run(..., check=True)` call: the binary may be
absent (`FileNotFoundError`) or the process completes with an exit code and
captured output. -/
inductive RunOutcome where
  | notFound
  | completed (exitCode : Nat) (stdout : String) (stderr : String)
deriving Repr, DecidableEq

/-- The arguments `main.py` passes to `subprocess.run`. -/
structure SubprocessCall where
  cmd : List String
  capture_output : Bool
  text : Bool
  check : Bool
  timeout? : Option Nat
deriving Repr, DecidableEq

/-- The `subprocess.run` invocation built by `convert_audio_to_wav`
(main.py lines 63-76): the ffmpeg command with `capture_output=True`,
`text=True`, `check=True` and no `timeout` argument. -/
def convertCall (input_path output_path : String) : SubprocessCall :=
  ⟨["ffmpeg", "-i", input_path, "-ac", "1", "-ar", "16000", "-y", output_path],
    true, true, true, none⟩

/-- The `subprocess.run` invocation built by `run_aeneas_alignment`
(main.py lines 118-131): `sys.executable -m aeneas.tools.execute_task ...`
with `capture_output=True`, `text=True`, `check=True` and no `timeout`
argument. -/
def aeneasCall (pythonExe audio_path text_path output_path : String) : SubprocessCall :=
  ⟨[pythonExe, "-m", "aeneas.tools.execute_task", audio_path, text_path,
      "task_language=jpn|os_task_file_format=json|is_text_type=plain", output_path],
    true, true, true, none⟩

/-- Error translation of `convert_audio_to_wav` (main.py lines 53-86):
`check=True` turns a non-zero exit into `CalledProcessError` (500 with the
captured stderr in the detail); a missing binary is a fixed 500. -/
def convert_audio_to_wav (o : RunOutcome) : Except HTTPError Unit :=
  match o with
  | .notFound => .error ⟨500, "ffmpeg not found. Please install ffmpeg."⟩
  | .completed 0 _ _ => .ok ()
  | .completed _ _ stderr => .error ⟨500, ("Audio conversion failed: " ++ stderr)⟩

/-- `write_lyrics_file` (main.py lines 89-96): an empty list is a 400 error,
otherwise the written file holds each line stripped and newline-terminated
(the returned value is the file content as a list of written chunks). -/
def write_lyrics_file (lyrics : List String) : Except HTTPError (List String) :=
  if lyrics.isEmpty then .error ⟨400, "Lyrics array cannot be empty"⟩
  else .ok (lyrics.map (fun line => pyStrip line ++ "\n"))

/-- Error translation of `run_aeneas_alignment` (main.py lines 99-141):
non-zero exit is a 500 with the captured stderr; a missing interpreter or
module is a fixed 500. -/
def run_aeneas_alignment (o : RunOutcome) : Except HTTPError Unit :=
  match o with
  | .notFound => .error ⟨500, "Aeneas not found. Please install aeneas."⟩
  | .completed 0 _ _ => .ok ()
  | .completed _ _ stderr => .error ⟨500, ("Aeneas alignment failed: " ++ stderr)⟩

/-- The four per-request temporary paths derived from the request's unique
id in `align_lyrics` (main.py lines 204-214). -/
def tempPaths (uid : String) : List String :=
  ["/tmp/audio_" ++ uid, "/tmp/converted_" ++ uid ++ ".wav",
    "/tmp/lyrics_" ++ uid ++ ".txt", "/tmp/alignment_" ++ uid ++ ".json"]

/-- Oracle for one request's effectful collaborators: the fetch outcome, the
two subprocess outcomes, the `json.load` outcome and the fragments it
yields, and which `os.remove` calls raise during cleanup. -/
structure Env where
  fetch : FetchOutcome
  ffmpegRun : RunOutcome
  aeneasRun : RunOutcome
  jsonLoadOk : Bool
  jsonLoadErr : String
  fragments : List Fragment
  removeFails : String → Bool

/-- The `try` body of `align_lyrics` (main.py lines 216-232): run the four
stages in order against a scratch filesystem (a list of existing paths),
each successful stage creating its artifact, aborting at the first
`HTTPException`; finally parse the aeneas output. -/
def pipelineBody (env : Env) (uid : String) (lyrics : List String) (fs : List String) :
    Except HTTPError (List AlignmentResult) × List String :=
  match download_audio env.fetch with
  | .error e => (.error e, fs)
  | .ok _ =>
    let fs1 := ("/tmp/audio_" ++ uid) :: fs
    match convert_audio_to_wav env.ffmpegRun with
    | .error e => (.error e, fs1)
    | .ok _ =>
      let fs2 := ("/tmp/converted_" ++ uid ++ ".wav") :: fs1
      match write_lyrics_file lyrics with
      | .error e => (.error e, fs2)
      | .ok _ =>
        let fs3 := ("/tmp/lyrics_" ++ uid ++ ".txt") :: fs2
        match run_aeneas_alignment env.aeneasRun with
        | .error e => (.error e, fs3)
        | .ok _ =>
          let fs4 := ("/tmp/alignment_" ++ uid ++ ".json") :: fs3
          if env.jsonLoadOk then
            (parse_aeneas_output env.fragments lyrics, fs4)
          else
            (.error ⟨500, ("Failed to parse Aeneas output: " ++ env.jsonLoadErr)⟩, fs4)

/-- The `finally` block of `align_lyrics` (main.py lines 241-248): for each
of the four paths, if it exists try to `os.remove` it, swallowing any
exception (`removeFails` tells which removals raise; a failed removal
leaves the file in place and changes nothing else). -/
def cleanupFiles (removeFails : String → Bool) : List String → List String → List String
  | [], fs => fs
  | p :: rest, fs =>
    let fs1 :=
      if fs.contains p then
        if removeFails p then fs else fs.filter (fun q => q != p)
      else fs
    cleanupFiles removeFails rest fs1

/-- The `/align` handler body `align_lyrics` (main.py lines 194-248) on an
already-validated request: run the pipeline, then unconditionally clean up
the four temporary paths; the primary outcome is returned unchanged. -/
def align_lyrics (env : Env) (uid : String) (lyrics : List String) (fs : List String) :
    Except HTTPError (List AlignmentResult) × List String :=
  let step := pipelineBody env uid lyrics fs
  (step.1, cleanupFiles env.removeFails (tempPaths uid) step.2)

/-- The full request path: FastAPI/pydantic runs `validate_lyrics` before
the handler; a validation failure is a 422 response and the handler (and
with it every stage) never runs, leaving the filesystem untouched. -/
def handleAlign (env : Env) (uid : String) (lyricsRaw : List String) (fs : List String) :
    Except HTTPError (List AlignmentResult) × List String :=
  match validate_lyrics lyricsRaw with
  | .error msg => (.error ⟨422, msg⟩, fs)
  | .ok lyrics => align_lyrics env uid lyrics fs

/-- Outcome of one startup probe (`subprocess.run` with `timeout=5`):
missing binary, timeout expiry, or completion with an exit code. -/
inductive ProbeOutcome where
  | notFound
  | timedOut
  | completed (exitCode : Nat)
deriving Repr, DecidableEq

/-- The ffmpeg probe invocation in `check_dependencies` (main.py lines
260-265): `["ffmpeg", "-version"]` with a 5-second timeout and no `check`. -/
def ffmpegProbeCall : SubprocessCall :=
  ⟨["ffmpeg", "-version"], true, true, false, some 5⟩

/-- The espeak-ng probe invocation in `check_dependencies` (main.py lines
275-280): `["espeak-ng", "--version"]` with a 5-second timeout. -/
def espeakProbeCall : SubprocessCall :=
  ⟨["espeak-ng", "--version"], true, true, false, some 5⟩

/-- The errors the ffmpeg probe contributes (main.py lines 258-271). -/
def ffmpegProbeErrors (o : ProbeOutcome) : List String :=
  match o with
  | .completed 0 => []
  | .completed _ => ["ffmpeg is installed but returned an error"]
  | .notFound =>
    ["ffmpeg not found. Install with: brew install ffmpeg (macOS) or apt-get install ffmpeg (Linux)"]
  | .timedOut => ["ffmpeg check timed out"]

/-- The errors the espeak-ng probe contributes (main.py lines 273-286). -/
def espeakProbeErrors (o : ProbeOutcome) : List String :=
  match o with
  | .completed 0 => []
  | .completed _ => ["espeak-ng is installed but returned an error"]
  | .notFound =>
    ["espeak-ng not found. Install with: brew install espeak-ng (macOS) or apt-get install espeak-ng (Linux)"]
  | .timedOut => ["espeak-ng check timed out"]

/-- The errors the aeneas Python-module import check contributes
(main.py lines 288-294). -/
def aeneasImportErrors (importOk : Bool) (importErr : String) : List String :=
  if importOk then []
  else [("aeneas Python module not found. Install with: pip3 install aeneas. Error: " ++ importErr)]

/-- `check_dependencies` (main.py lines 251-310): run all three probes,
accumulating their errors in order; a non-empty list is reported in full
and startup is refused (`RuntimeError`), modelled as `.error` carrying the
complete list. -/
def check_dependencies (ff es : ProbeOutcome) (aeneasOk : Bool) (aeneasErr : String) :
    Except (List String) Unit :=
  let errors :=
    ffmpegProbeErrors ff ++ espeakProbeErrors es ++ aeneasImportErrors aeneasOk aeneasErr
  if errors.isEmpty then .ok () else .error errors

/-- The startup gate (main.py lines 313-316): the server begins accepting
traffic only when `check_dependencies` raises nothing. -/
def serviceStarts (ff es : ProbeOutcome) (aeneasOk : Bool) (aeneasErr : String) : Bool :=
  match check_dependencies ff es aeneasOk aeneasErr with
  | .ok _ => true
  | .error _ => false

/-! ## Helper lemmas -/

theorem getD_eq_get_of_lt {α : Type} (l : List α) (d : α) (i : Nat) (h : i < l.length) :
    l.getD i d = l.get ⟨i, h⟩ := by
  simp [List.getD_eq_getElem?_getD, List.getElem?_eq_getElem h, List.get_eq_getElem]

/-- Shape of a successful `alignLoop` run: one result per fragment, indices
running up from `idx`, texts read off `lyrics` positionally. -/
theorem alignLoop_ok_spec (lyrics : List String) (frs : List Fragment) :
    ∀ (idx : Nat) (rs : List AlignmentResult),
      alignLoop lyrics idx frs = .ok rs →
      rs.length = frs.length ∧
      ∀ j (hj : j < rs.length),
        (rs.get ⟨j, hj⟩).line_index = idx + j + 1 ∧
        (rs.get ⟨j, hj⟩).text = lyrics.getD (idx + j) "" := by
  induction frs with
  | nil =>
    intro idx rs h
    simp only [alignLoop] at h
    cases h
    exact ⟨rfl, fun j hj => absurd hj (by simp)⟩
  | cons f fs ih =>
    intro idx rs h
    simp only [alignLoop] at h
    cases hpf : processFragment idx f with
    | error err => rw [hpf] at h; cases h
    | ok p =>
      rw [hpf] at h
      obtain ⟨s, e⟩ := p
      cases hrec : alignLoop lyrics (idx + 1) fs with
      | error err => rw [hrec] at h; cases h
      | ok rest =>
        rw [hrec] at h
        cases h
        obtain ⟨hlen, hspec⟩ := ih (idx + 1) rest hrec
        refine ⟨by simp [hlen], ?_⟩
        intro j hj
        cases j with
        | zero => simp
        | succ j2 =>
          have hj2 : j2 < rest.length := by simp at hj; omega
          obtain ⟨h1, h2⟩ := hspec j2 hj2
          constructor
          · show (rest.get ⟨j2, hj2⟩).line_index = idx + (j2 + 1) + 1
            rw [h1]; omega
          · show (rest.get ⟨j2, hj2⟩).text = lyrics.getD (idx + (j2 + 1)) ""
            rw [h2]; congr 1; omega

/-- C1: for every valid request whose lines list has N elements, a
successful reconciliation yields exactly N results in input order:
`line_index` is `i + 1` at 0-based position `i` and `text` is the original
unstripped input line at that position. -/
theorem align_ok_results_match_input (fragments : List Fragment) (lyrics : List String)
    (rs : List AlignmentResult)
    (h : parse_aeneas_output fragments lyrics = .ok rs) :
    rs.length = lyrics.length ∧
    ∀ i (hi : i < lyrics.length),
      ∃ hr : i < rs.length,
        (rs.get ⟨i, hr⟩).line_index = i + 1 ∧
        (rs.get ⟨i, hr⟩).text = lyrics.get ⟨i, hi⟩ := by
  unfold parse_aeneas_output at h
  by_cases hlen : fragments.length = lyrics.length
  · simp only [hlen, ne_eq, not_true_eq_false, if_false, ite_false] at h
    obtain ⟨hl, hspec⟩ := alignLoop_ok_spec lyrics fragments 0 rs h
    have hlr : rs.length = lyrics.length := by rw [hl, hlen]
    refine ⟨hlr, ?_⟩
    intro i hi
    have hr : i < rs.length := by omega
    obtain ⟨h1, h2⟩ := hspec i hr
    refine ⟨hr, ?_, ?_⟩
    · simpa using h1
    · rw [h2]
      simp only [Nat.zero_add]
      exact getD_eq_get_of_lt lyrics "" i hi
  · rw [if_pos hlen] at h
    cases h

/-- C1 witness: the spec's two-line scenario, with direct begin/end pairs
`(0, 2.5)` and `(2.5, 5)`. -/
theorem align_ok_results_match_input_witness :
    parse_aeneas_output [⟨some 0, some (5/2), []⟩, ⟨some (5/2), some 5, []⟩]
        ["春の歌", "遠い夢"] =
      .ok [⟨1, "春の歌", 0, 5/2⟩, ⟨2, "遠い夢", 5/2, 5⟩] ∧
    ([⟨1, "春の歌", 0, 5/2⟩, ⟨2, "遠い夢", 5/2, 5⟩] : List AlignmentResult).length =
      (["春の歌", "遠い夢"] : List String).length := by
  refine ⟨rfl, ?_⟩
  exact (align_ok_results_match_input
    [⟨some 0, some (5/2), []⟩, ⟨some (5/2), some 5, []⟩] ["春の歌", "遠い夢"] _ rfl).1

/-- C2: a fragment count different from the lyrics count makes the
reconciler fail with a 500 reconciliation fault and no results; results
come back only when the counts agree exactly. -/
theorem align_count_mismatch_is_internal_fault (fragments : List Fragment)
    (lyrics : List String) (hne : lyrics ≠ [])
    (hmis : fragments.length ≠ lyrics.length) :
    (∃ err, parse_aeneas_output fragments lyrics = .error err ∧ err.status = 500) ∧
    (∀ rs, parse_aeneas_output fragments lyrics ≠ .ok rs) ∧
    (∀ frs2 rs, parse_aeneas_output frs2 lyrics = .ok rs → frs2.length = lyrics.length) := by
  refine ⟨⟨⟨500, "Alignment mismatch: " ++ toString fragments.length ++ " fragments for " ++
      toString lyrics.length ++ " lyrics"⟩, ?_, rfl⟩, ?_, ?_⟩
  · unfold parse_aeneas_output
    rw [if_pos hmis]
  · intro rs hok
    unfold parse_aeneas_output at hok
    rw [if_pos hmis] at hok
    cases hok
  · intro frs2 rs hok
    by_contra hne2
    unfold parse_aeneas_output at hok
    rw [if_pos hne2] at hok
    cases hok

/-- C2 witness: zero fragments against one lyric line. -/
theorem align_count_mismatch_witness :
    parse_aeneas_output [] ["a"] =
      .error ⟨500, "Alignment mismatch: " ++ toString (0 : Nat) ++ " fragments for " ++
        toString (1 : Nat) ++ " lyrics"⟩ ∧
    (∀ rs, parse_aeneas_output [] ["a"] ≠ .ok rs) := by
  have h := align_count_mismatch_is_internal_fault [] ["a"] (by simp) (by simp)
  exact ⟨rfl, h.2.1⟩

/-- C3 counterexample: the code copies the engine's numeric values
verbatim, so a fragment carrying `begin = -1`, `end = -2` reconciles
successfully into a result whose start is negative and whose end precedes
its start, refuting `start >= 0 ∧ end >= start` as an unconditional
guarantee. -/
theorem align_times_unclamped_counterexample :
    parse_aeneas_output [⟨some (-1), some (-2), []⟩] ["a"] =
      .ok [⟨1, "a", -1, -2⟩] ∧
    ¬(∀ rs, parse_aeneas_output [⟨some (-1), some (-2), []⟩] ["a"] = .ok rs →
        ∀ r ∈ rs, 0 ≤ r.start ∧ r.start ≤ r.«end») := by
  refine ⟨rfl, ?_⟩
  intro hcl
  have h := (hcl [⟨1, "a", -1, -2⟩] rfl ⟨1, "a", -1, -2⟩ (by simp)).1
  norm_num at h

/-- Decidable check that the span `processFragment` extracts from a
fragment is non-negative and ordered. -/
def fragTimesNonneg (f : Fragment) : Bool :=
  match processFragment 0 f with
  | .ok (s, e) => decide (0 ≤ s ∧ s ≤ e)
  | .error _ => true

/-- The success value of `processFragment` does not depend on the running
index (the index only enters the error message). -/
theorem processFragment_ok_idx_irrel (f : Fragment) (idx idx2 : Nat) (p : Rat × Rat)
    (h : processFragment idx f = .ok p) : processFragment idx2 f = .ok p := by
  obtain ⟨b?, e?, ls⟩ := f
  cases b? <;> cases e? <;> cases ls <;> simp_all [processFragment]

/-- Every result a successful `alignLoop` run emits carries the span of
one of the walked fragments. -/
theorem alignLoop_ok_times (lyrics : List String) (frs : List Fragment) :
    ∀ idx rs, alignLoop lyrics idx frs = .ok rs →
      ∀ r ∈ rs, ∃ f ∈ frs, ∃ k, processFragment k f = .ok (r.start, r.«end») := by
  induction frs with
  | nil =>
    intro idx rs h
    simp only [alignLoop] at h
    cases h
    intro r hr
    simp at hr
  | cons f fs ih =>
    intro idx rs h
    simp only [alignLoop] at h
    cases hpf : processFragment idx f with
    | error err => rw [hpf] at h; cases h
    | ok p =>
      rw [hpf] at h
      obtain ⟨s, e⟩ := p
      cases hrec : alignLoop lyrics (idx + 1) fs with
      | error err => rw [hrec] at h; cases h
      | ok rest =>
        rw [hrec] at h
        cases h
        intro r hr
        rcases List.mem_cons.mp hr with hr0 | hrmem
        · subst hr0
          exact ⟨f, List.mem_cons_self f fs, idx, hpf⟩
        · obtain ⟨f2, hf2, k, hk⟩ := ih (idx + 1) rest hrec r hrmem
          exact ⟨f2, List.mem_cons_of_mem f hf2, k, hk⟩

/-- C3 amended: reconciliation copies the engine's times verbatim, with no
clamping or ordering check; every result satisfies `start >= 0` and
`end >= start` provided the span extracted from each fragment already
does. -/
theorem align_times_inherit_engine_bounds (fragments : List Fragment)
    (lyrics : List String) (rs : List AlignmentResult)
    (hok : parse_aeneas_output fragments lyrics = .ok rs)
    (hfr : ∀ f ∈ fragments, fragTimesNonneg f = true) :
    ∀ r ∈ rs, 0 ≤ r.start ∧ r.start ≤ r.«end» := by
  intro r hr
  unfold parse_aeneas_output at hok
  by_cases hlen : fragments.length = lyrics.length
  · simp only [hlen, ne_eq, not_true_eq_false, ite_false] at hok
    obtain ⟨f, hf, k, hk⟩ := alignLoop_ok_times lyrics fragments 0 rs hok r hr
    have h0 := processFragment_ok_idx_irrel f k 0 _ hk
    have hb := hfr f hf
    unfold fragTimesNonneg at hb
    rw [h0] at hb
    exact of_decide_eq_true hb
  · rw [if_pos hlen] at hok
    cases hok

/-- C3 amended witness: a single well-formed fragment `(0, 1)`. -/
theorem align_times_inherit_engine_bounds_witness :
    0 ≤ ((⟨1, "a", 0, 1⟩ : AlignmentResult)).start ∧
      ((⟨1, "a", 0, 1⟩ : AlignmentResult)).start ≤
        ((⟨1, "a", 0, 1⟩ : AlignmentResult)).«end» := by
  refine align_times_inherit_engine_bounds [⟨some 0, some 1, []⟩] ["a"]
    [⟨1, "a", 0, 1⟩] rfl ?_ ⟨1, "a", 0, 1⟩ (by simp)
  intro f hf
  rw [List.mem_singleton] at hf
  subst hf
  decide

/-- C5: a fragment lacking the direct begin/end pair derives its span from
the nested sub-lines — start from the first sub-line's begin and end from
the last sub-line's end — while a fragment with neither a direct pair nor
a non-empty nested sequence is a fatal 500 internal error. -/
theorem fragment_nested_fallback (f : Fragment) (idx : Nat)
    (hnd : f.begin? = none ∨ f.end? = none) :
    (f.lines = [] →
      processFragment idx f =
        .error ⟨500, "Fragment " ++ toString (idx + 1) ++ " has no timing information"⟩) ∧
    (∀ sl1 sl2 b e, f.lines.head? = some sl1 → f.lines.getLast? = some sl2 →
      sl1.begin? = some b → sl2.end? = some e →
      processFragment idx f = .ok (b, e)) := by
  obtain ⟨b?, e?, ls⟩ := f
  have hmain : ∀ ls2 : List SubLine, processFragment idx ⟨b?, e?, ls2⟩ =
      (match ls2 with
        | [] => .error ⟨500, "Fragment " ++ toString (idx + 1) ++ " has no timing information"⟩
        | first :: rest =>
          .ok (first.begin?.getD 0,
            ((first :: rest).getLast (List.cons_ne_nil first rest)).end?.getD 0)) := by
    intro ls2
    cases b? with
    | none => cases e? <;> rfl
    | some b =>
      cases e? with
      | none => rfl
      | some e =>
        exfalso
        rcases hnd with h | h <;> exact Option.noConfusion h
  constructor
  · intro hls
    have hls2 : ls = [] := hls
    subst hls2
    exact hmain []
  · intro sl1 sl2 b e h1 h2 hb he
    cases ls with
    | nil => cases h1
    | cons first rest =>
      have e1 : first = sl1 := by
        have h1c : (first :: rest).head? = some sl1 := h1
        simpa using h1c
      have e2 : (first :: rest).getLast (List.cons_ne_nil first rest) = sl2 := by
        have h2c : (first :: rest).getLast? = some sl2 := h2
        rw [List.getLast?_eq_getLast (first :: rest) (List.cons_ne_nil first rest)] at h2c
        exact Option.some.inj h2c
      have := hmain (first :: rest)
      simp only at this
      rw [this, e2, e1, hb, he]
      rfl

/-- C5 witness: the spec's scenario — a fragment with only nested sub-line
records `(1.0, 1.2)` and `(1.3, 2.0)` reconciles to the envelope `(1, 2)`. -/
theorem fragment_nested_fallback_witness :
    processFragment 0
        ⟨none, none, [⟨some 1, some (6/5)⟩, ⟨some (13/10), some 2⟩]⟩ = .ok (1, 2) :=
  (fragment_nested_fallback ⟨none, none, [⟨some 1, some (6/5)⟩, ⟨some (13/10), some 2⟩]⟩ 0
    (Or.inl rfl)).2 ⟨some 1, some (6/5)⟩ ⟨some (13/10), some 2⟩ 1 2 rfl rfl rfl rfl

/-- The cleanup loop never adds a path to the scratch filesystem. -/
theorem cleanupFiles_subset (rf : String → Bool) :
    ∀ (paths fs : List String) (x : String), x ∈ cleanupFiles rf paths fs → x ∈ fs := by
  intro paths
  induction paths with
  | nil =>
    intro fs x h
    simpa [cleanupFiles] using h
  | cons p rest ih =>
    intro fs x h
    simp only [cleanupFiles] at h
    have hmem := ih _ x h
    split at hmem
    · split at hmem
      · exact hmem
      · exact (List.mem_filter.mp hmem).1
    · exact hmem

/-- When every removal primitive succeeds, the cleanup loop removes every
listed path from the scratch filesystem. -/
theorem cleanupFiles_removes (rf : String → Bool) (hrf : ∀ p, rf p = false) :
    ∀ (paths fs : List String) (p : String), p ∈ paths → p ∉ cleanupFiles rf paths fs := by
  intro paths
  induction paths with
  | nil =>
    intro fs p hp
    cases hp
  | cons q rest ih =>
    intro fs p hp hmem
    rcases List.mem_cons.mp hp with h0 | hrest
    · subst h0
      simp only [cleanupFiles] at hmem
      have hin := cleanupFiles_subset rf rest _ p hmem
      rw [hrf p] at hin
      cases hc : fs.contains p with
      | false =>
        rw [hc] at hin
        simp at hin
        exact absurd hin (by simpa using hc)
      | true =>
        rw [hc] at hin
        simp at hin
    · simp only [cleanupFiles] at hmem
      exact ih _ p hrest hmem

/-- C4: on every terminal path — success or a failure at any stage — the
`finally` block sweeps all four per-request temporary paths: when the
removal primitive succeeds they are absent from scratch storage afterwards,
and the primary outcome is identical whatever the removal failures are
(cleanup faults are swallowed and never mask the result). -/
theorem cleanup_always_runs_and_never_masks (env : Env) (uid : String)
    (lyrics : List String) (fs : List String) (g : String → Bool) :
    ((∀ p, env.removeFails p = false) →
      ∀ p ∈ tempPaths uid, p ∉ (align_lyrics env uid lyrics fs).2) ∧
    (align_lyrics env uid lyrics fs).1 =
      (align_lyrics ⟨env.fetch, env.ffmpegRun, env.aeneasRun, env.jsonLoadOk,
          env.jsonLoadErr, env.fragments, g⟩ uid lyrics fs).1 := by
  constructor
  · intro hrf p hp
    exact cleanupFiles_removes env.removeFails hrf (tempPaths uid) _ p hp
  · cases env
    rfl

/-- A fully successful collaborator environment, used by concrete witnesses. -/
def envAllOk : Env :=
  ⟨.success, .completed 0 "" "", .completed 0 "" "", true, "",
    [⟨some 0, some 1, []⟩], fun _ => false⟩

/-- C4 witness: a concrete successful run with reliable removal leaves the
audio temp path absent, and the outcome is the same under failing removal. -/
theorem cleanup_always_runs_witness :
    ("/tmp/audio_u" ∉ (align_lyrics envAllOk "u" ["a"] []).2) ∧
    (align_lyrics envAllOk "u" ["a"] []).1 =
      (align_lyrics ⟨.success, .completed 0 "" "", .completed 0 "" "", true, "",
          [⟨some 0, some 1, []⟩], fun _ => true⟩ "u" ["a"] []).1 := by
  have h := cleanup_always_runs_and_never_masks envAllOk "u" ["a"] [] (fun _ => true)
  exact ⟨h.1 (fun p => rfl) "/tmp/audio_u" (by decide), h.2⟩

/-- The enumerate walk of `validate_lyrics` fails at the first
newline-bearing element, with the message naming that element's index. -/
theorem checkMultiline_error_at (v : List String) :
    ∀ (k i : Nat) (hi : i < v.length),
      pyContainsNewline (v.get ⟨i, hi⟩) = true →
      (∀ j (hj : j < v.length), j < i → pyContainsNewline (v.get ⟨j, hj⟩) = false) →
      checkMultiline k v = .error (multilineMsg (k + i)) := by
  induction v with
  | nil =>
    intro k i hi
    simp at hi
  | cons line rest ih =>
    intro k i hi hcur hprev
    cases i with
    | zero =>
      have hline : pyContainsNewline line = true := by simpa using hcur
      simp [checkMultiline, hline]
    | succ i2 =>
      have hline : pyContainsNewline line = false := by
        have := hprev 0 (by simp) (Nat.succ_pos i2)
        simpa using this
      have hstep : checkMultiline k (line :: rest) = checkMultiline (k + 1) rest := by
        simp [checkMultiline, hline]
      have hi2 : i2 < rest.length := by simpa using hi
      have hcur2 : pyContainsNewline (rest.get ⟨i2, hi2⟩) = true := by simpa using hcur
      have hprev2 : ∀ j (hj : j < rest.length), j < i2 →
          pyContainsNewline (rest.get ⟨j, hj⟩) = false := by
        intro j hj hji
        have := hprev (j + 1) (by simpa using Nat.succ_lt_succ hj) (Nat.succ_lt_succ hji)
        simpa using this
      have heq : k + (i2 + 1) = (k + 1) + i2 := by omega
      rw [hstep, heq]
      exact ih (k + 1) i2 hi2 hcur2 hprev2

/-- The element walk fails whenever some element contains a newline. -/
theorem checkMultiline_fails_of_any (v : List String) :
    ∀ k, (∃ line ∈ v, pyContainsNewline line = true) →
      ∃ m, checkMultiline k v = .error m := by
  induction v with
  | nil =>
    intro k h
    obtain ⟨line, hl, _⟩ := h
    cases hl
  | cons a as ih =>
    intro k h
    cases ha : pyContainsNewline a with
    | true => exact ⟨multilineMsg k, by simp [checkMultiline, ha]⟩
    | false =>
      obtain ⟨line, hl, hc⟩ := h
      rcases List.mem_cons.mp hl with h0 | hmem
      · subst h0
        rw [ha] at hc
        cases hc
      · obtain ⟨m, hm⟩ := ih (k + 1) ⟨line, hmem, hc⟩
        exact ⟨m, by simp [checkMultiline, ha, hm]⟩

/-- A failing element walk makes `validate_lyrics` fail with its message. -/
theorem validate_lyrics_error_of_check (v : List String) (m : String)
    (hne : v ≠ []) (h : checkMultiline 0 v = .error m) :
    validate_lyrics v = .error m := by
  cases v with
  | nil => exact absurd rfl hne
  | cons a as => simp [validate_lyrics, h]

/-- C6: validation rejects an empty lines list and any element containing a
line break, before any external stage is consulted — the line-break message
names the first offending index, and on any validation failure the service
answers 422 while the scratch filesystem is untouched, uniformly in the
stage environment. -/
theorem validation_rejects_before_any_stage (lyrics : List String) :
    (lyrics = [] → validate_lyrics lyrics = .error "lyrics cannot be empty") ∧
    (∀ i (hi : i < lyrics.length),
      pyContainsNewline (lyrics.get ⟨i, hi⟩) = true →
      (∀ j (hj : j < lyrics.length), j < i →
        pyContainsNewline (lyrics.get ⟨j, hj⟩) = false) →
      validate_lyrics lyrics = .error (multilineMsg i)) ∧
    (∀ i (hi : i < lyrics.length), pyContainsNewline (lyrics.get ⟨i, hi⟩) = true →
      ∃ m, validate_lyrics lyrics = .error m) ∧
    (∀ msg, validate_lyrics lyrics = .error msg →
      ∀ env uid fs, handleAlign env uid lyrics fs = (.error ⟨422, msg⟩, fs)) := by
  refine ⟨?_, ?_, ?_, ?_⟩
  · intro h
    subst h
    rfl
  · intro i hi hcur hprev
    have hne : lyrics ≠ [] := by
      intro h
      subst h
      simp at hi
    have hck := checkMultiline_error_at lyrics 0 i hi hcur hprev
    rw [Nat.zero_add] at hck
    exact validate_lyrics_error_of_check lyrics (multilineMsg i) hne hck
  · intro i hi hcur
    have hne : lyrics ≠ [] := by
      intro h
      subst h
      simp at hi
    obtain ⟨m, hm⟩ :=
      checkMultiline_fails_of_any lyrics 0 ⟨lyrics.get ⟨i, hi⟩, List.get_mem lyrics i hi, hcur⟩
    exact ⟨m, validate_lyrics_error_of_check lyrics m hne hm⟩
  · intro msg hmsg env uid fs
    simp [handleAlign, hmsg]

/-- C6 witness: `["a\nb"]` is rejected with the index-0 message and a 422,
with no stage consulted. -/
theorem validation_rejects_witness :
    validate_lyrics ["a\nb"] = .error (multilineMsg 0) ∧
    handleAlign envAllOk "u" ["a\nb"] [] = (.error ⟨422, multilineMsg 0⟩, []) := by
  have h := validation_rejects_before_any_stage ["a\nb"]
  have h1 := h.2.1 0 (by decide) (by decide)
    (fun j hj hj0 => absurd hj0 (Nat.not_lt_zero j))
  exact ⟨h1, h.2.2.2 _ h1 envAllOk "u" []⟩

/-- C7 counterexample: the request-path invocations are built without any
`timeout` argument — at concrete paths, neither the ffmpeg conversion call
nor the aeneas call carries one, refuting the claim that every request-path
invocation has an independent timeout. -/
theorem request_invocations_lack_timeout_counterexample :
    ¬((convertCall "/tmp/audio_u" "/tmp/converted_u.wav").timeout?.isSome = true ∧
      (aeneasCall "python3" "/tmp/converted_u.wav" "/tmp/lyrics_u.txt"
        "/tmp/alignment_u.json").timeout?.isSome = true) := by
  decide

/-- C7 amended: the request-path invocations (audio conversion, forced
alignment) pass no timeout and rely on `check=True` for failure detection;
only the startup preflight probes carry a timeout (5 seconds), and their
expiry is recorded as a timed-out fault. -/
theorem request_invocations_no_timeout_probes_timeout :
    (∀ inp outp, (convertCall inp outp).timeout? = none ∧
      (convertCall inp outp).check = true) ∧
    (∀ py a t o, (aeneasCall py a t o).timeout? = none ∧
      (aeneasCall py a t o).check = true) ∧
    ffmpegProbeCall.timeout? = some 5 ∧
    espeakProbeCall.timeout? = some 5 ∧
    ffmpegProbeErrors .timedOut = ["ffmpeg check timed out"] ∧
    espeakProbeErrors .timedOut = ["espeak-ng check timed out"] :=
  ⟨fun _ _ => ⟨rfl, rfl⟩, fun _ _ _ _ => ⟨rfl, rfl⟩, rfl, rfl, rfl, rfl⟩

/-- C8: a fetch failure is attributed to the caller as a 400, while an
absent external binary or a tool that ran and exited non-zero is an
internal 500 — and for a tool that ran the detail carries the captured
stderr verbatim. -/
theorem failure_attribution (msg stdout stderr : String) (code : Nat) (hc : code ≠ 0) :
    download_audio (.failure msg) =
      .error ⟨400, "Failed to download audio: " ++ msg⟩ ∧
    convert_audio_to_wav .notFound =
      .error ⟨500, "ffmpeg not found. Please install ffmpeg."⟩ ∧
    run_aeneas_alignment .notFound =
      .error ⟨500, "Aeneas not found. Please install aeneas."⟩ ∧
    convert_audio_to_wav (.completed code stdout stderr) =
      .error ⟨500, "Audio conversion failed: " ++ stderr⟩ ∧
    run_aeneas_alignment (.completed code stdout stderr) =
      .error ⟨500, "Aeneas alignment failed: " ++ stderr⟩ := by
  refine ⟨rfl, rfl, rfl, ?_, ?_⟩ <;>
    cases code with
    | zero => exact absurd rfl hc
    | succ n => rfl

/-- C8 witness: a concrete failed download and a concrete non-zero ffmpeg
exit with captured stderr. -/
theorem failure_attribution_witness :
    download_audio (.failure "boom") =
      .error ⟨400, "Failed to download audio: " ++ "boom"⟩ ∧
    convert_audio_to_wav (.completed 1 "" "err") =
      .error ⟨500, "Audio conversion failed: " ++ "err"⟩ := by
  have h := failure_attribution "boom" "" "err" 1 (by decide)
  exact ⟨h.1, h.2.2.2.1⟩

/-- The ffmpeg probe is clean exactly on a zero exit. -/
theorem ffmpegProbeErrors_eq_nil_iff (o : ProbeOutcome) :
    ffmpegProbeErrors o = [] ↔ o = .completed 0 := by
  cases o with
  | completed n => cases n <;> simp [ffmpegProbeErrors]
  | notFound => simp [ffmpegProbeErrors]
  | timedOut => simp [ffmpegProbeErrors]

/-- The espeak-ng probe is clean exactly on a zero exit. -/
theorem espeakProbeErrors_eq_nil_iff (o : ProbeOutcome) :
    espeakProbeErrors o = [] ↔ o = .completed 0 := by
  cases o with
  | completed n => cases n <;> simp [espeakProbeErrors]
  | notFound => simp [espeakProbeErrors]
  | timedOut => simp [espeakProbeErrors]

/-- The aeneas import check is clean exactly when the import succeeds. -/
theorem aeneasImportErrors_eq_nil_iff (aOk : Bool) (aErr : String) :
    aeneasImportErrors aOk aErr = [] ↔ aOk = true := by
  cases aOk <;> simp [aeneasImportErrors]

/-- C9: the preflight probes every tool and accumulates all failures —
missing binary, non-zero exit and timeout each contribute a fault, a clean
probe contributes none — a raised startup error carries the complete
concatenated fault list, and the service starts exactly when every probe is
clean. -/
theorem preflight_accumulates_and_gates (ff es : ProbeOutcome) (aOk : Bool) (aErr : String) :
    (ffmpegProbeErrors ff = [] ↔ ff = .completed 0) ∧
    (espeakProbeErrors es = [] ↔ es = .completed 0) ∧
    (aeneasImportErrors aOk aErr = [] ↔ aOk = true) ∧
    (∀ errs, check_dependencies ff es aOk aErr = .error errs →
      errs = ffmpegProbeErrors ff ++ espeakProbeErrors es ++
        aeneasImportErrors aOk aErr ∧ errs ≠ []) ∧
    (serviceStarts ff es aOk aErr = true ↔
      ff = .completed 0 ∧ es = .completed 0 ∧ aOk = true) := by
  refine ⟨ffmpegProbeErrors_eq_nil_iff ff, espeakProbeErrors_eq_nil_iff es,
    aeneasImportErrors_eq_nil_iff aOk aErr, ?_, ?_⟩
  · intro errs h
    unfold check_dependencies at h
    dsimp only at h
    cases hE : (ffmpegProbeErrors ff ++ espeakProbeErrors es ++
        aeneasImportErrors aOk aErr).isEmpty with
    | true => rw [hE] at h; simp at h
    | false =>
      rw [hE] at h
      simp only [Bool.false_eq_true, if_false] at h
      cases h
      refine ⟨rfl, ?_⟩
      intro hnil
      rw [hnil] at hE
      simp at hE
  · have hss : serviceStarts ff es aOk aErr =
        (ffmpegProbeErrors ff ++ espeakProbeErrors es ++
          aeneasImportErrors aOk aErr).isEmpty := by
      unfold serviceStarts check_dependencies
      dsimp only
      cases hE : (ffmpegProbeErrors ff ++ espeakProbeErrors es ++
          aeneasImportErrors aOk aErr).isEmpty <;> rfl
    rw [hss]
    simp [List.append_eq_nil, ffmpegProbeErrors_eq_nil_iff,
      espeakProbeErrors_eq_nil_iff, aeneasImportErrors_eq_nil_iff, and_assoc]

/-- C9 witness: a missing ffmpeg and a timed-out espeak-ng probe together
with a failed aeneas import yield a non-empty fault list and a refused
startup. -/
theorem preflight_witness :
    (ffmpegProbeErrors .notFound ++ espeakProbeErrors .timedOut ++
      aeneasImportErrors false "e") ≠ [] ∧
    serviceStarts .notFound .timedOut false "e" = false := by
  have h := preflight_accumulates_and_gates .notFound .timedOut false "e"
  exact ⟨(h.2.2.2.1 _ rfl).2, rfl⟩

/-- C10: validation only succeeds on a non-empty list, so the
empty-lyrics 400 branch inside the lyrics-file writing step is unreachable
for validated requests — the write always succeeds. -/
theorem write_lyrics_after_validation_never_empty_error (v l : List String)
    (h : validate_lyrics v = .ok l) :
    write_lyrics_file l ≠ .error ⟨400, "Lyrics array cannot be empty"⟩ ∧
    write_lyrics_file l = .ok (l.map (fun line => pyStrip line ++ "\n")) := by
  have hlv : l = v ∧ v ≠ [] := by
    unfold validate_lyrics at h
    split at h
    · cases h
    · rename_i hv
      cases hck : checkMultiline 0 v with
      | error m => rw [hck] at h; cases h
      | ok u =>
        rw [hck] at h
        cases h
        refine ⟨rfl, ?_⟩
        intro hnil
        exact hv (by simp [hnil])
  obtain ⟨he, hne⟩ := hlv
  subst he
  have hie : l.isEmpty = false := by
    cases l with
    | nil => exact absurd rfl hne
    | cons a as => rfl
  constructor
  · simp [write_lyrics_file, hie]
  · simp [write_lyrics_file, hie]

/-- C10 witness: the validated one-line request writes its file. -/
theorem write_lyrics_after_validation_witness :
    write_lyrics_file ["a"] = .ok (["a"].map (fun line => pyStrip line ++ "\n")) :=
  (write_lyrics_after_validation_never_empty_error ["a"] ["a"] rfl).2

end KaraokeService
